import Mathlib

set_option autoImplicit false

/-!
Verification development for the `database` module of opensips-cli
(`opensipscli/modules/database.py`).  The Python code is shallowly embedded:
external collaborators (the `osdb` driver, the filesystem, configuration and
prompting) are abstracted into explicit environment records whose fields give
the outcome of each external call, and each command handler becomes a pure
Lean function from such an environment to a result/trace record.
-/

namespace OpensipsCli

/-! ### Python string and path helpers

Models of the `str` and `os.path` (posixpath) operations the module uses. -/

/-- Python `str.replace(pat, repl)` for a non-empty `pat`: left-to-right,
non-overlapping replacement of every occurrence, on the character list.
The first argument is recursion fuel (one unit per input character
suffices), keeping the definition structurally recursive. -/
def pyReplaceAux (pat repl : List Char) : Nat → List Char → List Char
  | _, [] => []
  | 0, l => l
  | fuel + 1, c :: rest =>
    if pat.isPrefixOf (c :: rest) then
      repl ++ pyReplaceAux pat repl fuel (rest.drop (pat.length - 1))
    else
      c :: pyReplaceAux pat repl fuel rest

/-- Python `s.replace(pat, repl)` on strings (for non-empty `pat`). -/
def pyReplace (s pat repl : String) : String :=
  ⟨pyReplaceAux pat.toList repl.toList s.toList.length s.toList⟩

/-- Python `s.endswith(pat)`. -/
def strEndsWith (s pat : String) : Bool :=
  pat.toList.isSuffixOf s.toList

/-- Python `s.startswith(pat)`. -/
def strStartsWith (s pat : String) : Bool :=
  pat.toList.isPrefixOf s.toList

/-- posixpath `os.path.join(a, b)`: an absolute second component wins;
otherwise a separator is inserted unless `a` is empty or already ends in
one. -/
def pathJoin (a b : String) : String :=
  if strStartsWith b "/" then b
  else if a = "" ∨ strEndsWith a "/" then a ++ b
  else a ++ "/" ++ b

/-- Python `s.split(sep)` for a one-character separator, on character
lists. -/
def splitOnChar (sep : Char) : List Char → List (List Char)
  | [] => [[]]
  | c :: rest =>
    let r := splitOnChar sep rest
    if c = sep then [] :: r
    else
      match r with
      | [] => [[c]]
      | h :: t => (c :: h) :: t

/-- posixpath `os.path.basename(p)`: everything after the last slash. -/
def pyBasename (p : String) : String :=
  ⟨(splitOnChar '/' p.toList).getLastD []⟩

/-- posixpath `os.path.dirname(p)`: everything up to and including the last
slash, with trailing slashes stripped unless the result is all slashes. -/
def pyDirname (p : String) : String :=
  let parts := splitOnChar '/' p.toList
  if parts.length ≤ 1 then ""
  else
    let head := List.intercalate ['/'] parts.dropLast ++ ['/']
    if head.all (fun c => c = '/') then ⟨head⟩
    else ⟨(head.reverse.dropWhile (fun c => c = '/')).reverse⟩

/-- Python `backend[0:backend.index('+')] if '+' in backend else backend`:
the prefix of the backend identifier before the first `+`
(driver-variant suffix stripping, used by `get_schema_path` and
`get_migrate_scripts_path`). -/
def stripDriver (backend : String) : String :=
  ⟨backend.toList.takeWhile (fun c => c ≠ '+')⟩

/-- Python `s.strip()` (ASCII whitespace). -/
def pyStrip (s : String) : String :=
  ⟨((s.toList.dropWhile Char.isWhitespace).reverse.dropWhile
      Char.isWhitespace).reverse⟩

/-- Python `s.lower()` (ASCII case folding). -/
def pyLower (s : String) : String :=
  ⟨s.toList.map Char.toLower⟩

/-- Python `cfg.get("database_modules").strip().lower()`. -/
def normalizeModLine (s : String) : String :=
  pyLower (pyStrip s)

/-! ### Module-list constants (verbatim from the source) -/

def STANDARD_DB_MODULES : List String := [
  "acc",
  "alias_db",
  "auth_db",
  "avpops",
  "clusterer",
  "dialog",
  "dialplan",
  "dispatcher",
  "domain",
  "drouting",
  "group",
  "load_balancer",
  "msilo",
  "permissions",
  "rtpproxy",
  "rtpengine",
  "speeddial",
  "tls_mgm",
  "usrloc"
]

def EXTRA_DB_MODULES : List String := [
  "b2b",
  "b2b_sca",
  "call_center",
  "carrierroute",
  "closeddial",
  "domainpolicy",
  "emergency",
  "fraud_detection",
  "freeswitch_scripting",
  "imc",
  "load_balancer",
  "presence",
  "registrant",
  "rls",
  "smpp",
  "tracer",
  "userblacklist"
]

def MIGRATE_TABLES_24_TO_30 : List String := [
  "registrant",
  "tls_mgm",
  "acc",
  "address",
  "cachedb",
  "carrierfailureroute",
  "carrierroute",
  "cc_agents",
  "cc_calls",
  "cc_cdrs",
  "cc_flows",
  "closeddial",
  "clusterer",
  "cpl",
  "dbaliases",
  "dialplan",
  "dispatcher",
  "domain",
  "domainpolicy",
  "dr_carriers",
  "dr_gateways",
  "dr_groups",
  "dr_partitions",
  "dr_rules",
  "emergency_report",
  "emergency_routing",
  "emergency_service_provider",
  "fraud_detection",
  "freeswitch",
  "globalblacklist",
  "grp",
  "imc_members",
  "imc_rooms",
  "load_balancer",
  "location",
  "missed_calls",
  "presentity",
  "pua",
  "re_grp",
  "rls_presentity",
  "rls_watchers",
  "route_tree",
  "rtpengine",
  "rtpproxy_sockets",
  "silo",
  "sip_trace",
  "smpp",
  "speed_dial",
  "subscriber",
  "uri",
  "userblacklist",
  "usr_preferences",
  "xcap"
]

/-! ### The `osdb` constructor and `get_db` (lines 543-563)

`osdb(db_url, db_name)` either succeeds or raises one of the driver
exceptions; `get_db` catches four of them (re-raising access-denied when
`check_access` is set) and turns them into a logged `None`; any other
exception propagates. -/

/-- Outcome of the `osdb(db_url, db_name)` constructor call. -/
inductive ConnRes where
  | ok
  | accessDenied
  | argErr
  | connErr
  | noSuchMod
  | otherExc
deriving DecidableEq, Repr

/-- An exception propagating out of `get_db`. -/
inductive GExc where
  | accessDenied
  | otherRaise
deriving DecidableEq, Repr

/-- Model of `get_db` (database.py lines 543-563): `.ok (some ())` is a returned
handle, `.ok none` is a caught-and-logged error (Python falls off the end of
the function and returns `None`), `.error` is an exception propagating to
the caller. -/
def get_db (check_access : Bool) : ConnRes → Except GExc (Option Unit)
  | .ok => .ok (some ())
  | .accessDenied => if check_access then .error .accessDenied else .ok none
  | .argErr => .ok none
  | .connErr => .ok none
  | .noSuchMod => .ok none
  | .otherExc => .error .otherRaise

/-! ### `ensure_user` (lines 416-443) -/

instance exceptDecEq {ε α : Type} [DecidableEq ε] [DecidableEq α] :
    DecidableEq (Except ε α) := fun a b =>
  match a, b with
  | .ok x, .ok y => if h : x = y then .isTrue (by rw [h]) else .isFalse (by simp [h])
  | .error x, .error y => if h : x = y then .isTrue (by rw [h]) else .isFalse (by simp [h])
  | .ok _, .error _ => .isFalse (by simp)
  | .error _, .ok _ => .isFalse (by simp)

/-- An exception propagating out of `ensure_user` itself:
`attrError` models `db.destroy()` being reached with `db = None`
(an uncaught `AttributeError`), `pyOther` a non-`osdb` exception from the
first access probe, which the `except osdbAccessDeniedError` clause does not
catch. -/
inductive PyExc where
  | attrError
  | pyOther
deriving DecidableEq, Repr

/-- Environment of one `ensure_user` call: the outcome of the first
access-checked `osdb` constructor call, the boolean returned by
`admin_db.ensure_user(db_url)`, and the outcome of the retry. -/
structure EUEnv where
  firstConn : ConnRes
  adminEnsureOk : Bool
  retryConn : ConnRes
deriving DecidableEq, Repr

/-- Result of `ensure_user`: the returned integer (or a propagating
exception), whether the administrative `ensure_user` primitive was invoked,
and whether the probe handle was destroyed. -/
structure EUResult where
  ret : Except PyExc Int
  adminEnsureCalled : Bool
  dbDestroyed : Bool
deriving DecidableEq, Repr

/-- Model of `ensure_user(db_url, db_name, admin_db)` (database.py lines 416-443):
probe access with `check_access=True`; on success fall through to
`db.destroy(); return 0`;
on `osdbAccessDeniedError` call `admin_db.ensure_user(db_url)` (returning
`-1` when it is falsy) and retry the probe, where `except Exception`
turns any exception raised by the retry into `return -1`. -/
def ensure_user (env : EUEnv) : EUResult :=
  match get_db true env.firstConn with
  | .ok (some _) => ⟨.ok 0, false, true⟩
  | .ok none => ⟨.error .attrError, false, false⟩
  | .error .otherRaise => ⟨.error .pyOther, false, false⟩
  | .error .accessDenied =>
    if ¬env.adminEnsureOk then ⟨.ok (-1), true, false⟩
    else
      match get_db true env.retryConn with
      | .ok (some _) => ⟨.ok 0, true, true⟩
      | .ok none => ⟨.error .attrError, true, false⟩
      | .error _ => ⟨.ok (-1), true, false⟩

/-! ### `create_tables` (lines 332-414) -/

/-- Outcome of one `db.create_module(table_file)` execution (together with
the postgres grant scan inside the same `try`): success, a caught
`osdbModuleAlreadyExistsError`, or a caught other `osdbError`. -/
inductive ExecResult where
  | ok
  | alreadyExists
  | dbError
deriving DecidableEq, Repr

/-- Environment of one `create_tables` call: outcomes of the external
calls it makes.  `isFile` answers `os.path.isfile` on full paths, `listing`
is `os.listdir(schema_path)`, `databaseModules` is the configured
`database_modules` value when set, `execResult` gives each module's
`create_module` outcome, and `schemaPath` the result of
`get_schema_path(db.dialect)`. -/
structure CTEnv where
  getDbOk : Bool
  dbExists : Bool
  schemaPath : Option String
  isFile : String → Bool
  listing : List String
  databaseModules : Option String
  execResult : String → ExecResult

/-- The table-list resolution of `create_tables` (lines 363-380): an
explicit non-empty `tables` argument wins; otherwise a configured
`database_modules` string is used (directory enumeration when it normalizes
to `"all"`, else split on a space); otherwise `STANDARD_DB_MODULES`. -/
def resolveTables (env : CTEnv) (tables : List String) (sp : String) : List String :=
  if tables ≠ [] then tables
  else
    match env.databaseModules with
    | some line =>
      let tl := normalizeModLine line
      if tl = "all" then
        (env.listing.filter (fun f =>
            env.isFile (pathJoin sp f) && strEndsWith f "-create.sql")).map
          (fun f => pyReplace f "-create.sql" "")
      else (splitOnChar ' ' tl.toList).map (fun l => String.mk l)
    | none => STANDARD_DB_MODULES

/-- Python dict assignment `table_files[table] = path` on an
insertion-ordered association list: an existing key keeps its position and
has its value updated, a new key is appended. -/
def dictInsert (m : List (String × String)) (k v : String) : List (String × String) :=
  if m.any (fun p => p.1 = k) then
    m.map (fun p => if p.1 = k then (k, v) else p)
  else m ++ [(k, v)]

/-- The Table Files Map construction loop of `create_tables`
(lines 385-395): `"standard"` is skipped, a module whose
`<module>-create.sql` is not a file is logged as a warning and excluded,
the rest are inserted. -/
def buildTableFiles (env : CTEnv) (sp : String)
    (init : List (String × String)) : List String → List (String × String)
  | [] => init
  | t :: rest =>
    if t = "standard" then buildTableFiles env sp init rest
    else if env.isFile (pathJoin sp (t ++ "-create.sql")) then
      buildTableFiles env sp
        (dictInsert init t (pathJoin sp (t ++ "-create.sql"))) rest
    else buildTableFiles env sp init rest

/-- Result of `create_tables`: the returned integer, the Table Files Map,
the execution trace (each module of the map is attempted, with the outcome
of its `create_module` call; caught errors never stop the loop), and
whether the probe handle was destroyed. -/
structure CTResult where
  ret : Int
  table_files : List (String × String)
  attempted : List (String × ExecResult)
  dbDestroyed : Bool
deriving Repr

/-- Model of `create_tables(db_name, db_url, admin_db, tables, create_std)`
(database.py lines 332-414): connect to the created database, require it to
exist, resolve the schema path, seed the map with `standard-create.sql`
when `create_std` (fatal when that file is missing), resolve the module
list, build the Table Files Map (missing files warn and are skipped),
execute every entry catching `osdbModuleAlreadyExistsError` and `osdbError`
per module, destroy the handle, and return 0. -/
def create_tables (env : CTEnv) (tables : List String) (create_std : Bool) :
    CTResult :=
  if ¬env.getDbOk then ⟨-1, [], [], false⟩
  else if ¬env.dbExists then ⟨-1, [], [], false⟩
  else
    match env.schemaPath with
    | none => ⟨-1, [], [], false⟩
    | some sp =>
      if create_std ∧ ¬env.isFile (pathJoin sp "standard-create.sql") then
        ⟨-1, [], [], false⟩
      else
        let init : List (String × String) :=
          if create_std then [("standard", pathJoin sp "standard-create.sql")]
          else []
        let tf := buildTableFiles env sp init (resolveTables env tables sp)
        ⟨0, tf, tf.map (fun p => (p.1, env.execResult p.1)), true⟩

/-! ### `get_schema_path` (lines 585-629) and
`get_migrate_scripts_path` (lines 565-583) -/

/-- Filesystem oracle: `os.path.isfile`, `os.path.isdir`,
`os.path.exists` on full paths. -/
structure FsEnv where
  isFile : String → Bool
  isDir : String → Bool
  pathExists : String → Bool

/-- Model of `get_schema_path(backend)` (database.py lines 585-629).  `cache` is the
current `self.db_path`, `readParam` the result of
`cfg.read_param("database_schema_path", ...)`.  Returns the resolved schema
path (or `None`) together with the updated `self.db_path` cache:
strip the driver-variant suffix; reuse a cached root directly; otherwise
accept `/usr/share/opensips` when `<backend>/standard-create.sql` is a file
there; otherwise normalize the operator-supplied path (one trailing slash
stripped; step up one level when its basename equals the backend) and
validate it (exists, is a directory, has a `<backend>` subdirectory),
caching it on success. -/
def get_schema_path (fs : FsEnv) (cache : Option String)
    (readParam : Option String) (backend : String) :
    Option String × Option String :=
  let backend := stripDriver backend
  match cache with
  | some p => (some (pathJoin p backend), some p)
  | none =>
    if fs.isFile (pathJoin (pathJoin "/usr/share/opensips" backend)
        "standard-create.sql") then
      (some (pathJoin "/usr/share/opensips" backend), some "/usr/share/opensips")
    else
      match readParam with
      | none => (none, none)
      | some db_path0 =>
        let db_path1 : String :=
          if strEndsWith db_path0 "/" then ⟨db_path0.toList.dropLast⟩
          else db_path0
        let db_path := if pyBasename db_path1 = backend then pyDirname db_path1
                       else db_path1
        if ¬fs.pathExists db_path then (none, none)
        else if ¬fs.isDir db_path then (none, none)
        else if ¬fs.isDir (pathJoin db_path backend) then (none, none)
        else (some (pathJoin db_path backend), some db_path)

/-- Model of `get_migrate_scripts_path(backend)` (database.py lines 565-583): strip
the driver-variant suffix; when `self.db_path` is unset the function falls
off the end and returns `None`; otherwise both
`<db_path>/<backend>/table-migrate.sql` and
`<db_path>/<backend>/db-migrate.sql` must be files, else `None`. -/
def get_migrate_scripts_path (cache : Option String)
    (isFile : String → Bool) (backend : String) : Option (List String) :=
  let backend := stripDriver backend
  match cache with
  | none => none
  | some p =>
    let scripts := [pathJoin (pathJoin p backend) "table-migrate.sql",
                    pathJoin (pathJoin p backend) "db-migrate.sql"]
    if scripts.any (fun i => !isFile i) then none else some scripts

/-! ### `create_db` (lines 308-330) and `do_create` (lines 273-306) -/

/-- Environment of one `create_db` call: whether the fresh handle could be
opened in the `db=None` branch, whether `db.exists(db_name)` holds, and
whether `db.create(db_name)` succeeds. -/
structure CDEnv where
  getDbOk : Bool
  dbExists : Bool
  createOk : Bool
deriving DecidableEq, Repr

/-- Model of `create_db(db_name, admin_url, db)` (database.py lines 308-330):
with no handle provided one is opened (failure is `-1`); an already
existing database is a warned `-2`; a failed `db.create` is `-1`;
otherwise 0. -/
def create_db (env : CDEnv) (provided : Bool) : Int :=
  if ¬provided ∧ ¬env.getDbOk then -1
  else if env.dbExists then -2
  else if ¬env.createOk then -1
  else 0

/-- Environment of one `do_create` call: results of `get_admin_db_url`,
the admin `get_db`, the `create_db` sub-call, `get_db_url`, and the integer
results of the `ensure_user` and `create_tables` sub-calls. -/
structure DCEnv where
  adminUrlOk : Bool
  getDbOk : Bool
  cd : CDEnv
  dbUrlOk : Bool
  ensureUserRet : Int
  createTablesRet : Int
deriving DecidableEq, Repr

/-- Trace of one `do_create` call: the returned integer, whether the
administrative handle was opened, and whether `admin_db.destroy()` ran. -/
structure DCTrace where
  ret : Int
  adminOpened : Bool
  adminDestroyed : Bool
deriving DecidableEq, Repr

/-- Model of `do_create(params)` (database.py lines 273-306): resolve the admin URL,
open the admin handle, then `create_db`, `get_db_url`, `ensure_user` and
`create_tables` in sequence, each negative result returning `-1`
immediately; only the final success path calls `admin_db.destroy()`. -/
def do_create (env : DCEnv) : DCTrace :=
  if ¬env.adminUrlOk then ⟨-1, false, false⟩
  else if ¬env.getDbOk then ⟨-1, false, false⟩
  else if create_db env.cd true < 0 then ⟨-1, true, false⟩
  else if ¬env.dbUrlOk then ⟨-1, true, false⟩
  else if env.ensureUserRet < 0 then ⟨-1, true, false⟩
  else if env.createTablesRet < 0 then ⟨-1, true, false⟩
  else ⟨0, true, true⟩

/-! ### `do_add` (lines 238-270) and `do_drop` (lines 445-487) -/

/-- Environment of one `do_add` call: results of `get_db_url`,
`get_admin_db_url` and the admin `get_db`, plus the environment of the
`create_tables(db_name, db_url, admin_db, tables=[module],
create_std=False)` sub-call. -/
structure DAEnv where
  dbUrlOk : Bool
  adminUrlOk : Bool
  getDbOk : Bool
  ct : CTEnv

/-- Trace of one `do_add` call: the returned integer, whether the
administrative handle was opened, and whether `admin_db.destroy()` ran. -/
structure DATrace where
  ret : Int
  adminOpened : Bool
  adminDestroyed : Bool
deriving DecidableEq, Repr

/-- Model of `do_add(params)` (database.py lines 238-270): a missing module
parameter, a missing database URL, a missing admin URL or a failed admin
`get_db` return -1 before any handle exists; otherwise `create_tables` runs
with the single requested module and `create_std=False`, and
`admin_db.destroy()` is called unconditionally before returning
`create_tables`' result — the handle is released whether the sub-call
succeeded or failed. -/
def do_add (env : DAEnv) (params : List String) : DATrace :=
  if params.length < 1 then ⟨-1, false, false⟩
  else if ¬env.dbUrlOk then ⟨-1, false, false⟩
  else if ¬env.adminUrlOk then ⟨-1, false, false⟩
  else if ¬env.getDbOk then ⟨-1, false, false⟩
  else ⟨(create_tables env.ct [params.getD 0 ""] false).ret, true, true⟩

/-- Environment of one `do_drop` call: results of `get_admin_db_url` and
`get_db`, whether `db.exists()` holds, the `database_force_drop`
confirmation, and whether `db.drop()` succeeds. -/
structure DDEnv where
  adminUrlOk : Bool
  getDbOk : Bool
  dbExists : Bool
  forceDrop : Bool
  dropOk : Bool
deriving DecidableEq, Repr

/-- Trace of one `do_drop` call: the returned integer, whether the handle
was opened, whether `db.destroy()` ran, and whether `db.drop()` ran. -/
structure DDTrace where
  ret : Int
  dbOpened : Bool
  dbDestroyed : Bool
  dropCalled : Bool
deriving DecidableEq, Repr

/-- Model of `do_drop(params)` (database.py lines 445-487): a missing admin
URL or a failed `get_db` return -1 before any handle exists; with the
handle open, an existing database is dropped only under the
`database_force_drop` confirmation (a failed or declined drop only logs)
and the path falls through to `db.destroy(); return 0`; a missing database
warns, destroys the handle and returns -1 — the handle is released on both
exit paths reached after it is opened.  (`db.drop()`'s boolean only selects
the log message.) -/
def do_drop (env : DDEnv) : DDTrace :=
  if ¬env.adminUrlOk then ⟨-1, false, false, false⟩
  else if ¬env.getDbOk then ⟨-1, false, false, false⟩
  else if env.dbExists then
    if env.forceDrop then ⟨0, true, true, true⟩
    else ⟨0, true, true, false⟩
  else ⟨-1, true, true, false⟩

/-! ### `do_migrate` (lines 490-541) -/

/-- The value bound to a Python argument position, as far as its role
matters here: the administrative `osdb` handle, or a string. -/
inductive PyVal where
  | handle
  | str (s : String)
deriving DecidableEq, Repr

/-- The Python value returned by `do_migrate`: an integer, or the literal
`True` of its success path. -/
inductive PyRet where
  | int (i : Int)
  | boolTrue
deriving DecidableEq, Repr

/-- Environment of one `do_migrate` call: results of `get_admin_db_url`
and the admin `get_db`, the handle's dialect, `db.exists(old_db)`, the
`create_db` sub-call outcomes for the destination, the integer result of
the (mis-called) `create_tables` sub-call, `osdb.get_url_driver(admin_url)`,
the filesystem oracle, the cached `self.db_path` and the
`database_schema_path` prompt answer used by `get_schema_path`. -/
structure MigEnv where
  adminUrl : Option String
  getDbOk : Bool
  dialect : String
  oldExists : Bool
  newExists : Bool
  createOk : Bool
  createTablesRet : Int
  urlDriver : String
  fs : FsEnv
  db_path : Option String
  readParam : Option String

/-- Trace of one `do_migrate` call: the returned value, whether the usage
line was printed, whether the admin handle was opened, whether the
destination-creation step ran, the arguments of the `create_tables` call
when it was reached (source line 517 passes, after the destination name,
the admin HANDLE in the `db_url` position and the admin URL string in the
`admin_db` position), the `db.migrate` arguments when the copy ran, and
whether `db.destroy()` ran. -/
structure MigTrace where
  ret : PyRet
  usagePrinted : Bool
  dbOpened : Bool
  createDbCalled : Bool
  createTablesArgs : Option (String × PyVal × PyVal)
  migrateArgs : Option (List String × String × String × List String)
  destroyed : Bool
deriving DecidableEq, Repr

/-- Model of `do_migrate(params)` (database.py lines 490-541): fewer than two
parameters print the usage line and return 0; then resolve the admin URL
and handle; a non-mysql dialect, a missing source database, a failed
destination `create_db`, a failed `create_tables(new_db, db, admin_url)`,
an unresolved schema path or missing migration scripts each abort with a
negative return; otherwise `db.migrate(scripts, old_db, new_db,
MIGRATE_TABLES_24_TO_30)` runs, the handle is destroyed and `True` is
returned. -/
def do_migrate (env : MigEnv) (params : List String) : MigTrace :=
  if params.length < 2 then ⟨.int 0, true, false, false, none, none, false⟩
  else
    let old_db := params.getD 0 ""
    let new_db := params.getD 1 ""
    match env.adminUrl with
    | none => ⟨.int (-1), false, false, false, none, none, false⟩
    | some admin_url =>
      if ¬env.getDbOk then ⟨.int (-1), false, false, false, none, none, false⟩
      else if env.dialect ≠ "mysql" then
        ⟨.int (-1), false, true, false, none, none, false⟩
      else if ¬env.oldExists then
        ⟨.int (-2), false, true, false, none, none, false⟩
      else if create_db ⟨env.getDbOk, env.newExists, env.createOk⟩ true < 0 then
        ⟨.int (-1), false, true, true, none, none, false⟩
      else
        let ctArgs : Option (String × PyVal × PyVal) :=
          some (new_db, PyVal.handle, PyVal.str admin_url)
        if env.createTablesRet < 0 then
          ⟨.int (-1), false, true, true, ctArgs, none, false⟩
        else
          match get_schema_path env.fs env.db_path env.readParam env.urlDriver with
          | (none, _) => ⟨.int (-1), false, true, true, ctArgs, none, false⟩
          | (some _, cache) =>
            match get_migrate_scripts_path cache env.fs.isFile env.urlDriver with
            | none => ⟨.int (-1), false, true, true, ctArgs, none, false⟩
            | some scripts =>
              ⟨.boolTrue, false, true, true, ctArgs,
                some (scripts, old_db, new_db, MIGRATE_TABLES_24_TO_30), true⟩

/-! ## Claims -/

/-- Claim C1: privilege bootstrapping (`ensure_user`) is idempotent
check-then-escalate: a successful access-checked connection returns 0
without invoking the administrative `ensure_user` primitive (so re-running
against an already-bootstrapped pair is a no-op success); on access-denied
the administrative primitive is invoked, a falsy result yields -1, any
exception propagating from the retried access check yields -1, and a
successful retry yields 0. -/
theorem C1_ensure_user_check_then_escalate (env : EUEnv) :
    (env.firstConn = ConnRes.ok →
      ensure_user env = ⟨Except.ok 0, false, true⟩) ∧
    (env.firstConn = ConnRes.accessDenied →
      (ensure_user env).adminEnsureCalled = true ∧
      (env.adminEnsureOk = false → (ensure_user env).ret = Except.ok (-1)) ∧
      ((env.retryConn = ConnRes.accessDenied ∨ env.retryConn = ConnRes.otherExc) →
        (ensure_user env).ret = Except.ok (-1)) ∧
      (env.adminEnsureOk = true → env.retryConn = ConnRes.ok →
        (ensure_user env).ret = Except.ok 0)) := by
  obtain ⟨f, a, r⟩ := env
  refine ⟨fun hf => ?_, fun hf => ?_⟩
  · subst hf
    rfl
  · subst hf
    cases a <;> cases r <;> simp [ensure_user, get_db]

/-- Witness for C1 at concrete environments: an already-working access
check is a no-op success, and a failing administrative primitive after an
access-denied probe yields -1. -/
theorem C1_witness :
    ensure_user ⟨ConnRes.ok, true, ConnRes.ok⟩ = ⟨Except.ok 0, false, true⟩ ∧
    (ensure_user ⟨ConnRes.accessDenied, false, ConnRes.ok⟩).ret =
      Except.ok (-1) :=
  ⟨(C1_ensure_user_check_then_escalate ⟨ConnRes.ok, true, ConnRes.ok⟩).1 rfl,
   ((C1_ensure_user_check_then_escalate
      ⟨ConnRes.accessDenied, false, ConnRes.ok⟩).2 rfl).2.1 rfl⟩

/-- Claim C5: a `migrate` invocation whose opened backend handle has a
dialect other than `"mysql"` returns the failure code -1 and performs no
destination creation, no schema application and no row copy. -/
theorem C5_migrate_unsupported_dialect (env : MigEnv) (params : List String)
    (u : String) (hp : 2 ≤ params.length) (hu : env.adminUrl = some u)
    (hdb : env.getDbOk = true) (hd : env.dialect ≠ "mysql") :
    (do_migrate env params).ret = PyRet.int (-1) ∧
    (do_migrate env params).createDbCalled = false ∧
    (do_migrate env params).createTablesArgs = none ∧
    (do_migrate env params).migrateArgs = none := by
  have hlt : ¬params.length < 2 := by omega
  simp [do_migrate, hlt, hu, hdb, hd]

/-- Witness for C5 at a concrete environment with a postgres handle. -/
theorem C5_witness :
    (do_migrate
      ⟨some "postgres://postgres@localhost/postgres", true, "postgres", true,
        false, true, 0, "postgres", ⟨fun _ => true, fun _ => true, fun _ => true⟩,
        some "/usr/share/opensips", none⟩
      ["opensips", "opensips_new"]).ret = PyRet.int (-1) :=
  (C5_migrate_unsupported_dialect
    ⟨some "postgres://postgres@localhost/postgres", true, "postgres", true,
      false, true, 0, "postgres", ⟨fun _ => true, fun _ => true, fun _ => true⟩,
      some "/usr/share/opensips", none⟩
    ["opensips", "opensips_new"] "postgres://postgres@localhost/postgres"
    (by decide) rfl rfl (by decide)).1

/-- Claim C10: `migrate` with fewer than two parameters prints the usage
line and returns the integer 0 — the success status — without opening any
connection or attempting any creation or copy. -/
theorem C10_migrate_usage_returns_zero (env : MigEnv) (params : List String)
    (h : params.length < 2) :
    do_migrate env params =
      ⟨PyRet.int 0, true, false, false, none, none, false⟩ := by
  simp [do_migrate, h]

/-- Witness for C10: zero parameters at a concrete environment. -/
theorem C10_witness :
    do_migrate
      ⟨some "mysql://root@localhost", true, "mysql", true, false, true, 0,
        "mysql", ⟨fun _ => true, fun _ => true, fun _ => true⟩,
        some "/usr/share/opensips", none⟩ [] =
      ⟨PyRet.int 0, true, false, false, none, none, false⟩ :=
  C10_migrate_usage_returns_zero
    ⟨some "mysql://root@localhost", true, "mysql", true, false, true, 0,
      "mysql", ⟨fun _ => true, fun _ => true, fun _ => true⟩,
      some "/usr/share/opensips", none⟩ [] (by decide)

/-- A `dictInsert` leaves a key in the map exactly when it was there before
or it is the inserted key. -/
theorem dictInsert_mem_keys (m : List (String × String)) (k v j : String) :
    j ∈ (dictInsert m k v).map Prod.fst ↔ j ∈ m.map Prod.fst ∨ j = k := by
  unfold dictInsert
  by_cases h : m.any (fun p => p.1 = k)
  · rw [if_pos h]
    have hk : k ∈ m.map Prod.fst := by
      rcases List.any_eq_true.mp h with ⟨p, hp, hpk⟩
      exact List.mem_map.mpr ⟨p, hp, of_decide_eq_true hpk⟩
    have hkeys : (m.map (fun p => if p.1 = k then (k, v) else p)).map Prod.fst =
        m.map Prod.fst := by
      rw [List.map_map]
      apply List.map_congr_left
      intro p _
      by_cases hpk : p.1 = k <;> simp [hpk]
    rw [hkeys]
    constructor
    · exact Or.inl
    · rintro (hj | rfl)
      · exact hj
      · exact hk
  · rw [if_neg h]
    simp

/-- Membership in the keys of the Table Files Map built by
`buildTableFiles`: a key is present exactly when it was in the seed map or
it is a non-`"standard"` requested module whose creation SQL file exists. -/
theorem buildTableFiles_mem_keys (env : CTEnv) (sp : String)
    (init : List (String × String)) (ts : List String) (j : String) :
    j ∈ (buildTableFiles env sp init ts).map Prod.fst ↔
      j ∈ init.map Prod.fst ∨
        (j ∈ ts ∧ j ≠ "standard" ∧
          env.isFile (pathJoin sp (j ++ "-create.sql")) = true) := by
  induction ts generalizing init with
  | nil => simp [buildTableFiles]
  | cons t rest ih =>
    simp only [buildTableFiles]
    by_cases h1 : t = "standard"
    · subst h1
      rw [if_pos rfl, ih]
      constructor
      · rintro (h | ⟨hm, hs, hf⟩)
        · exact Or.inl h
        · exact Or.inr ⟨List.mem_cons_of_mem _ hm, hs, hf⟩
      · rintro (h | ⟨hm, hs, hf⟩)
        · exact Or.inl h
        · rcases List.mem_cons.mp hm with rfl | h3
          · exact absurd rfl hs
          · exact Or.inr ⟨h3, hs, hf⟩
    · rw [if_neg h1]
      by_cases h2 : env.isFile (pathJoin sp (t ++ "-create.sql")) = true
      · rw [if_pos h2, ih, dictInsert_mem_keys]
        constructor
        · rintro ((h | rfl) | ⟨hm, hs, hf⟩)
          · exact Or.inl h
          · exact Or.inr ⟨List.mem_cons_self _ _, h1, h2⟩
          · exact Or.inr ⟨List.mem_cons_of_mem _ hm, hs, hf⟩
        · rintro (h | ⟨hm, hs, hf⟩)
          · exact Or.inl (Or.inl h)
          · rcases List.mem_cons.mp hm with rfl | h3
            · exact Or.inl (Or.inr rfl)
            · exact Or.inr ⟨h3, hs, hf⟩
      · rw [if_neg h2, ih]
        constructor
        · rintro (h | ⟨hm, hs, hf⟩)
          · exact Or.inl h
          · exact Or.inr ⟨List.mem_cons_of_mem _ hm, hs, hf⟩
        · rintro (h | ⟨hm, hs, hf⟩)
          · exact Or.inl h
          · rcases List.mem_cons.mp hm with rfl | h3
            · exact absurd hf h2
            · exact Or.inr ⟨h3, hs, hf⟩

/-- Claim C2: schema application is a best-effort batch.  On the happy
preconditions (handle opened, database exists, schema path resolved, the
standard file present when requested), for every requested module list and
for every assignment of per-module execution outcomes: the call returns 0,
a resolved module (other than `"standard"`) is in the Table Files Map iff
its `<module>-create.sql` file exists (missing files are warned and
excluded, never fatal), and every map entry is attempted with its own
outcome — caught `osdbModuleAlreadyExistsError`/`osdbError` never abort the
loop. -/
theorem C2_create_tables_best_effort (env : CTEnv) (tables : List String)
    (create_std : Bool) (sp : String)
    (h1 : env.getDbOk = true) (h2 : env.dbExists = true)
    (h3 : env.schemaPath = some sp)
    (h4 : create_std = true →
      env.isFile (pathJoin sp "standard-create.sql") = true) :
    (create_tables env tables create_std).ret = 0 ∧
    (∀ t ∈ resolveTables env tables sp, t ≠ "standard" →
      (t ∈ (create_tables env tables create_std).table_files.map Prod.fst ↔
        env.isFile (pathJoin sp (t ++ "-create.sql")) = true)) ∧
    (create_tables env tables create_std).attempted =
      (create_tables env tables create_std).table_files.map
        (fun p => (p.1, env.execResult p.1)) := by
  have hct : create_tables env tables create_std =
      ⟨0,
        buildTableFiles env sp
          (if create_std then [("standard", pathJoin sp "standard-create.sql")]
           else [])
          (resolveTables env tables sp),
        (buildTableFiles env sp
          (if create_std then [("standard", pathJoin sp "standard-create.sql")]
           else [])
          (resolveTables env tables sp)).map
            (fun p => (p.1, env.execResult p.1)),
        true⟩ := by
    cases create_std with
    | false => simp [create_tables, h1, h2, h3]
    | true => simp [create_tables, h1, h2, h3, h4 rfl]
  refine ⟨by rw [hct], fun t hmem hstd => ?_, by rw [hct]⟩
  rw [hct]
  simp only []
  rw [buildTableFiles_mem_keys]
  constructor
  · rintro (h | ⟨_, _, hf⟩)
    · cases create_std <;> simp at h
      exact absurd h hstd
    · exact hf
  · intro hf
    exact Or.inr ⟨hmem, hstd, hf⟩

/-- Witness for C2 at a concrete environment: a two-module request where
one SQL file is missing and the other module reports
"already exists" still returns 0, includes exactly the present module, and
attempts it. -/
theorem C2_witness :
    (create_tables
      ⟨true, true, some "/s", fun f => f = "/s/dialog-create.sql" ∨
          f = "/s/standard-create.sql", [], some "dialog nosuchmod",
        fun _ => ExecResult.alreadyExists⟩ [] true).ret = 0 ∧
    ("dialog" ∈ (create_tables
      ⟨true, true, some "/s", fun f => f = "/s/dialog-create.sql" ∨
          f = "/s/standard-create.sql", [], some "dialog nosuchmod",
        fun _ => ExecResult.alreadyExists⟩ [] true).table_files.map Prod.fst) ∧
    ¬("nosuchmod" ∈ (create_tables
      ⟨true, true, some "/s", fun f => f = "/s/dialog-create.sql" ∨
          f = "/s/standard-create.sql", [], some "dialog nosuchmod",
        fun _ => ExecResult.alreadyExists⟩ [] true).table_files.map Prod.fst) := by
  refine ⟨(C2_create_tables_best_effort _ [] true "/s" rfl rfl rfl
      (fun _ => by decide)).1, ?_, ?_⟩
  · refine ((C2_create_tables_best_effort _ [] true "/s" rfl rfl rfl
      (fun _ => by decide)).2.1 "dialog" (by decide) (by decide)).mpr (by decide)
  · intro hmem
    have := ((C2_create_tables_best_effort _ [] true "/s" rfl rfl rfl
      (fun _ => by decide)).2.1 "nosuchmod" (by decide) (by decide)).mp hmem
    exact absurd this (by decide)

/-- Removal of a suffix, as the spec's words describe the `"all"`
enumeration ("strip the suffix to recover module names"); for comparison
with the source's replace-all semantics. -/
def stripSuffix (s pat : String) : String :=
  ⟨s.toList.take (s.toList.length - pat.toList.length)⟩

/-- The module set the spec's words describe for the `"all"` sentinel:
every regular `*-create.sql` file under the schema root, with the suffix
`-create.sql` stripped. -/
def specAllModules (listing : List String) (isFile : String → Bool)
    (sp : String) : List String :=
  (listing.filter (fun f =>
      isFile (pathJoin sp f) && strEndsWith f "-create.sql")).map
    (fun f => stripSuffix f "-create.sql")

/-- Counterexample to C3 as stated: for the regular file
`x-create.sql-create.sql`, the source computes the module name with
`f.replace('-create.sql', '')`, which removes every occurrence and yields
`"x"`, while stripping the suffix yields `"x-create.sql"`; the module set
is not the suffix-stripped set, and the module `"x-create.sql"` (which has
such a file) is omitted. -/
theorem C3_counterexample :
    resolveTables
        ⟨true, true, some "/s", fun _ => true, ["x-create.sql-create.sql"],
          some "all", fun _ => ExecResult.ok⟩ [] "/s" = ["x"] ∧
    specAllModules ["x-create.sql-create.sql"] (fun _ => true) "/s" =
      ["x-create.sql"] ∧
    resolveTables
        ⟨true, true, some "/s", fun _ => true, ["x-create.sql-create.sql"],
          some "all", fun _ => ExecResult.ok⟩ [] "/s" ≠
      specAllModules ["x-create.sql-create.sql"] (fun _ => true) "/s" := by
  decide

/-- Claim C3 (amended): when the configured module-selection string
normalizes to `"all"`, the resolved module list is exactly the names
obtained from the regular `*-create.sql` files under the schema root by
removing every occurrence of `-create.sql` (Python `str.replace`) — for
files containing `-create.sql` only as a suffix this is the suffix-stripped
name. -/
theorem C3_all_enumeration (env : CTEnv) (sp : String) (line : String)
    (hcfg : env.databaseModules = some line)
    (hall : normalizeModLine line = "all") (m : String) :
    m ∈ resolveTables env [] sp ↔
      ∃ f, f ∈ env.listing ∧ env.isFile (pathJoin sp f) = true ∧
        strEndsWith f "-create.sql" = true ∧
        m = pyReplace f "-create.sql" "" := by
  have hres : resolveTables env [] sp =
      (env.listing.filter (fun f =>
          env.isFile (pathJoin sp f) && strEndsWith f "-create.sql")).map
        (fun f => pyReplace f "-create.sql" "") := by
    simp [resolveTables, hcfg, hall]
  rw [hres]
  constructor
  · intro hm
    rcases List.mem_map.mp hm with ⟨f, hf, rfl⟩
    rcases List.mem_filter.mp hf with ⟨hmem, hcond⟩
    simp only [Bool.and_eq_true] at hcond
    rcases hcond with ⟨hfile, hend⟩
    exact ⟨f, hmem, hfile, hend, rfl⟩
  · rintro ⟨f, hmem, hfile, hend, rfl⟩
    exact List.mem_map.mpr
      ⟨f, List.mem_filter.mpr ⟨hmem, by rw [hfile, hend]; rfl⟩, rfl⟩

/-- Witness for C3 (amended) at a concrete environment: under a listing
with one matching and one non-matching file, `dialog` is resolved and
`README` is not. -/
theorem C3_witness :
    "dialog" ∈ resolveTables
      ⟨true, true, some "/s", fun _ => true, ["dialog-create.sql", "README"],
        some " All ", fun _ => ExecResult.ok⟩ [] "/s" ∧
    ¬("README" ∈ resolveTables
      ⟨true, true, some "/s", fun _ => true, ["dialog-create.sql", "README"],
        some " All ", fun _ => ExecResult.ok⟩ [] "/s") := by
  constructor
  · exact (C3_all_enumeration _ "/s" " All " rfl (by decide) "dialog").mpr
      ⟨"dialog-create.sql", by decide, by decide, by decide, by decide⟩
  · intro hmem
    rcases (C3_all_enumeration _ "/s" " All " rfl (by decide) "README").mp hmem
      with ⟨f, hf, _, hend, heq⟩
    rcases List.mem_pair.mp hf with rfl | rfl
    · exact absurd heq (by decide)
    · exact absurd hend (by decide)

/-- Counterexample to C4 as stated: `load_balancer` is a member of the
EXTRA set, yet with no explicit list and no configured module selection the
default resolution selects it (it is also in the STANDARD set). -/
theorem C4_counterexample :
    "load_balancer" ∈ EXTRA_DB_MODULES ∧
    "load_balancer" ∈ resolveTables
      ⟨true, true, some "/s", fun _ => false, [], none, fun _ => ExecResult.ok⟩
      [] "/s" := by
  decide

/-- Claim C4 (amended): module-set resolution is strict first-match-wins —
an explicit non-empty caller list wins; otherwise a configured
`database_modules` string (enumerated from the schema root when it
normalizes to `"all"`, else split on the space character); otherwise the
fixed `STANDARD_DB_MODULES` constant; and with no explicit list and no
configuration, no module of the EXTRA set outside the STANDARD set is ever
selected (`load_balancer` belongs to both sets and is selected). -/
theorem C4_resolution_precedence (env : CTEnv) (tables : List String)
    (sp : String) :
    (tables ≠ [] → resolveTables env tables sp = tables) ∧
    (env.databaseModules = none →
      resolveTables env [] sp = STANDARD_DB_MODULES) ∧
    (∀ line, env.databaseModules = some line → normalizeModLine line ≠ "all" →
      resolveTables env [] sp =
        (splitOnChar ' ' (normalizeModLine line).toList).map
          (fun l => String.mk l)) ∧
    (∀ line, env.databaseModules = some line → normalizeModLine line = "all" →
      resolveTables env [] sp =
        (env.listing.filter (fun f =>
            env.isFile (pathJoin sp f) && strEndsWith f "-create.sql")).map
          (fun f => pyReplace f "-create.sql" "")) ∧
    (∀ m, m ∈ EXTRA_DB_MODULES → m ∉ STANDARD_DB_MODULES →
      env.databaseModules = none → m ∉ resolveTables env [] sp) := by
  refine ⟨fun ht => ?_, fun hn => ?_, fun line hl hna => ?_,
    fun line hl ha => ?_, fun m _ hms hn => ?_⟩
  · simp [resolveTables, ht]
  · simp [resolveTables, hn]
  · simp [resolveTables, hl, hna]
  · simp [resolveTables, hl, ha]
  · simpa [resolveTables, hn] using hms

/-- Witness for C4 (amended) at concrete environments: an explicit list
wins, the default is the STANDARD set, and the EXTRA-only module `presence`
is not selected by default. -/
theorem C4_witness :
    resolveTables
        ⟨true, true, some "/s", fun _ => false, [], none, fun _ => ExecResult.ok⟩
        ["dialog"] "/s" = ["dialog"] ∧
    resolveTables
        ⟨true, true, some "/s", fun _ => false, [], none, fun _ => ExecResult.ok⟩
        [] "/s" = STANDARD_DB_MODULES ∧
    ¬("presence" ∈ resolveTables
        ⟨true, true, some "/s", fun _ => false, [], none, fun _ => ExecResult.ok⟩
        [] "/s") :=
  ⟨(C4_resolution_precedence _ ["dialog"] "/s").1 (by decide),
   (C4_resolution_precedence _ [] "/s").2.1 rfl,
   (C4_resolution_precedence _ [] "/s").2.2.2.2 "presence" (by decide)
     (by decide) rfl⟩

/-- A script list returned by `get_migrate_scripts_path` consists of
existing files only. -/
theorem get_migrate_scripts_path_all_files (cache : Option String)
    (isFile : String → Bool) (b : String) (l : List String)
    (h : get_migrate_scripts_path cache isFile b = some l) :
    ∀ s ∈ l, isFile s = true := by
  cases cache with
  | none => simp [get_migrate_scripts_path] at h
  | some p =>
    simp only [get_migrate_scripts_path] at h
    split at h
    · exact absurd h (by simp)
    · rename_i hany
      simp only [List.any_eq_true, Bool.not_eq_true'] at hany
      push_neg at hany
      cases h
      intro s hs
      have := hany s hs
      simpa using this

/-- A `db.migrate` bulk copy in `do_migrate` only runs with a script list
returned by `get_migrate_scripts_path`, whose files all exist. -/
theorem do_migrate_copy_needs_scripts (env : MigEnv) (params : List String)
    (r : List String × String × String × List String)
    (h : (do_migrate env params).migrateArgs = some r) :
    ∀ s ∈ r.1, env.fs.isFile s = true := by
  unfold do_migrate at h
  repeat' split at h
  all_goals try (exfalso; simp at h; done)
  rename_i scripts heq
  simp only [Option.some.injEq] at h
  rw [← h]
  exact get_migrate_scripts_path_all_files _ _ _ _ heq

/-- Claim C6: when either `table-migrate.sql` or `db-migrate.sql` is
missing under `<schema_root>/<backend>/`, script resolution returns no
scripts and `do_migrate` aborts with -1 before any row copy; and in
general the copy only ever runs with both scripts present. -/
theorem C6_missing_migrate_scripts_abort (env : MigEnv)
    (params : List String) (u P sp : String)
    (hp : 2 ≤ params.length) (hu : env.adminUrl = some u)
    (hdb : env.getDbOk = true) (hd : env.dialect = "mysql")
    (hold : env.oldExists = true) (hnew : env.newExists = false)
    (hcreate : env.createOk = true) (hct : 0 ≤ env.createTablesRet)
    (hsp : get_schema_path env.fs env.db_path env.readParam env.urlDriver =
      (some sp, some P))
    (hmiss : env.fs.isFile (pathJoin (pathJoin P (stripDriver env.urlDriver))
        "table-migrate.sql") = false ∨
      env.fs.isFile (pathJoin (pathJoin P (stripDriver env.urlDriver))
        "db-migrate.sql") = false) :
    get_migrate_scripts_path (some P) env.fs.isFile env.urlDriver = none ∧
    (do_migrate env params).ret = PyRet.int (-1) ∧
    (do_migrate env params).migrateArgs = none ∧
    (∀ (env' : MigEnv) (params' : List String)
        (r : List String × String × String × List String),
      (do_migrate env' params').migrateArgs = some r →
        ∀ s ∈ r.1, env'.fs.isFile s = true) := by
  have hnone : get_migrate_scripts_path (some P) env.fs.isFile env.urlDriver =
      none := by
    rcases hmiss with hm | hm <;> simp [get_migrate_scripts_path, hm]
  have hlt : ¬params.length < 2 := by omega
  have hct2 : ¬env.createTablesRet < 0 := by omega
  refine ⟨hnone, ?_, ?_, do_migrate_copy_needs_scripts⟩ <;>
    simp [do_migrate, create_db, hlt, hu, hdb, hd, hold, hnew, hcreate,
      hct2, hsp, hnone]

/-- Witness for C6 at a concrete environment: `db-migrate.sql` missing
under the cached schema root makes migrate return -1 with no copy. -/
theorem C6_witness :
    (do_migrate
      ⟨some "mysql://root@localhost", true, "mysql", true, false, true, 0,
        "mysql",
        ⟨fun f => f ≠ "/usr/share/opensips/mysql/db-migrate.sql",
          fun _ => true, fun _ => true⟩,
        some "/usr/share/opensips", none⟩
      ["opensips", "opensips_new"]).ret = PyRet.int (-1) :=
  (C6_missing_migrate_scripts_abort
    ⟨some "mysql://root@localhost", true, "mysql", true, false, true, 0,
      "mysql",
      ⟨fun f => f ≠ "/usr/share/opensips/mysql/db-migrate.sql",
        fun _ => true, fun _ => true⟩,
      some "/usr/share/opensips", none⟩
    ["opensips", "opensips_new"] "mysql://root@localhost"
    "/usr/share/opensips" "/usr/share/opensips/mysql"
    (by decide) rfl rfl rfl rfl rfl rfl (by decide) (by decide)
    (Or.inr (by decide))).2.1

/-- Claim C7 (evaluating the code at a run that reaches the provisioning
step): after the destination database is created, source line 517 invokes
`create_tables(new_db, db, admin_url)` — the administrative HANDLE occupies
the `db_url` parameter and the administrative URL string occupies the
`admin_db` parameter, not the application database URL and the
administrative connection the claim describes — and only afterwards is the
bulk copy executed once for the fixed manifest `MIGRATE_TABLES_24_TO_30`. -/
theorem C7_create_tables_args_transposed :
    (do_migrate
      ⟨some "mysql://root:pw@localhost", true, "mysql", true, false, true, 0,
        "mysql", ⟨fun _ => true, fun _ => true, fun _ => true⟩,
        some "/usr/share/opensips", none⟩
      ["opensips", "opensips_new"]).createTablesArgs =
      some ("opensips_new", PyVal.handle, PyVal.str "mysql://root:pw@localhost") ∧
    (do_migrate
      ⟨some "mysql://root:pw@localhost", true, "mysql", true, false, true, 0,
        "mysql", ⟨fun _ => true, fun _ => true, fun _ => true⟩,
        some "/usr/share/opensips", none⟩
      ["opensips", "opensips_new"]).migrateArgs =
      some (["/usr/share/opensips/mysql/table-migrate.sql",
             "/usr/share/opensips/mysql/db-migrate.sql"],
        "opensips", "opensips_new", MIGRATE_TABLES_24_TO_30) := by
  decide

/-- Applying `takeWhile` twice with one predicate equals applying it once. -/
theorem takeWhile_takeWhile_self {α : Type} (p : α → Bool) (l : List α) :
    (l.takeWhile p).takeWhile p = l.takeWhile p := by
  induction l with
  | nil => rfl
  | cons a r ih =>
    by_cases h : p a = true
    · simp [List.takeWhile_cons, h, ih]
    · simp [List.takeWhile_cons, h]

/-- Stripping the driver-variant suffix is idempotent. -/
theorem stripDriver_idem (b : String) :
    stripDriver (stripDriver b) = stripDriver b := by
  unfold stripDriver
  exact congrArg String.mk (takeWhile_takeWhile_self _ _)

/-- Claim C8: schema-root resolution strips the driver-variant suffix;
a cached root is reused directly; otherwise the well-known system path is
accepted when `<backend>/standard-create.sql` is a file there; otherwise
the operator-supplied path is normalized (one trailing slash stripped, then
one level up when its basename equals the backend), must exist, be a
directory and contain a `<backend>` subdirectory, failing with `None`
otherwise (also when no path is supplied), and a success caches the
resolved root. -/
theorem C8_get_schema_path_resolution (fs : FsEnv) (cache : Option String)
    (rp : Option String) (backend : String) :
    (get_schema_path fs cache rp backend =
      get_schema_path fs cache rp (stripDriver backend)) ∧
    (∀ p, cache = some p →
      get_schema_path fs cache rp backend =
        (some (pathJoin p (stripDriver backend)), some p)) ∧
    (cache = none →
      fs.isFile (pathJoin (pathJoin "/usr/share/opensips" (stripDriver backend))
          "standard-create.sql") = true →
      get_schema_path fs cache rp backend =
        (some (pathJoin "/usr/share/opensips" (stripDriver backend)),
          some "/usr/share/opensips")) ∧
    (cache = none →
      fs.isFile (pathJoin (pathJoin "/usr/share/opensips" (stripDriver backend))
          "standard-create.sql") = false →
      rp = none → get_schema_path fs cache rp backend = (none, none)) ∧
    (∀ dp, cache = none →
      fs.isFile (pathJoin (pathJoin "/usr/share/opensips" (stripDriver backend))
          "standard-create.sql") = false →
      rp = some dp →
      (let d1 : String := if strEndsWith dp "/" then ⟨dp.toList.dropLast⟩
                          else dp
       let d2 : String := if pyBasename d1 = stripDriver backend then
                            pyDirname d1
                          else d1
       (fs.pathExists d2 = false ∨ fs.isDir d2 = false ∨
          fs.isDir (pathJoin d2 (stripDriver backend)) = false →
         get_schema_path fs cache rp backend = (none, none)) ∧
       (fs.pathExists d2 = true → fs.isDir d2 = true →
         fs.isDir (pathJoin d2 (stripDriver backend)) = true →
         get_schema_path fs cache rp backend =
           (some (pathJoin d2 (stripDriver backend)), some d2)))) := by
  refine ⟨?_, fun p hc => ?_, fun hc hf => ?_, fun hc hf hrp => ?_,
    fun dp hc hf hrp => ?_⟩
  · show _ = get_schema_path fs cache rp (stripDriver backend)
    unfold get_schema_path
    rw [stripDriver_idem]
  · subst hc
    rfl
  · subst hc
    simp [get_schema_path, hf]
  · subst hc
    subst hrp
    simp [get_schema_path, hf]
  · subst hc
    subst hrp
    refine ⟨fun hbad => ?_, fun he hd hsub => ?_⟩
    · simp only [String.toList] at hbad
      rcases hbad with hb | hb | hb <;> simp [get_schema_path, hf, hb]
    · simp only [String.toList] at he hd hsub
      simp [get_schema_path, hf, he, hd, hsub]

/-- Witness for C8 at concrete inputs: a cached root is reused with the
`+pymysql` variant stripped, and an operator path ending in
`mysql/` is normalized up one level, validated and cached. -/
theorem C8_witness :
    get_schema_path ⟨fun _ => false, fun _ => true, fun _ => true⟩
        (some "/opt/schemas") none "mysql+pymysql" =
      (some "/opt/schemas/mysql", some "/opt/schemas") ∧
    get_schema_path ⟨fun _ => false, fun _ => true, fun _ => true⟩
        none (some "/opt/schemas/mysql/") "mysql" =
      (some "/opt/schemas/mysql", some "/opt/schemas") := by
  constructor
  · have h := (C8_get_schema_path_resolution
      ⟨fun _ => false, fun _ => true, fun _ => true⟩ (some "/opt/schemas")
      none "mysql+pymysql").2.1 "/opt/schemas" rfl
    rw [h]
    decide
  · have h := ((C8_get_schema_path_resolution
      ⟨fun _ => false, fun _ => true, fun _ => true⟩ none
      (some "/opt/schemas/mysql/") "mysql").2.2.2.2 "/opt/schemas/mysql/"
      rfl (by decide) rfl).2 (by decide) (by decide) (by decide)
    rw [h]
    decide

/-- In `do_create` the administrative handle is destroyed exactly on the
success exit path. -/
theorem do_create_destroy_iff (env : DCEnv) :
    (do_create env).adminDestroyed = true ↔ (do_create env).ret = 0 := by
  unfold do_create
  repeat' split
  all_goals simp

/-- In `do_migrate` the administrative handle is destroyed exactly on the
success exit path. -/
theorem do_migrate_destroy_iff (env : MigEnv) (params : List String) :
    (do_migrate env params).destroyed = true ↔
      (do_migrate env params).ret = PyRet.boolTrue := by
  unfold do_migrate
  repeat' split
  all_goals simp

/-- In `create_tables` the probe handle is destroyed exactly on the success
exit path. -/
theorem create_tables_destroy_iff (env : CTEnv) (tables : List String)
    (create_std : Bool) :
    (create_tables env tables create_std).dbDestroyed = true ↔
      (create_tables env tables create_std).ret = 0 := by
  unfold create_tables
  repeat' split
  all_goals simp

/-- Counterexample to C9 as stated: creating a database that already
exists makes `do_create` exit with -1 after the administrative handle was
opened, and `admin_db.destroy()` is never called on that exit path. -/
theorem C9_counterexample :
    (do_create ⟨true, true, ⟨true, true, true⟩, true, 0, 0⟩).ret = -1 ∧
    (do_create ⟨true, true, ⟨true, true, true⟩, true, 0, 0⟩).adminOpened =
      true ∧
    (do_create ⟨true, true, ⟨true, true, true⟩, true, 0, 0⟩).adminDestroyed =
      false := by
  decide

/-- In `do_add` the administrative handle is destroyed exactly when it was
opened: line 269 runs `admin_db.destroy()` unconditionally, on both the
success and the failure result of the `create_tables` sub-call. -/
theorem do_add_destroy_iff_open (env : DAEnv) (params : List String) :
    (do_add env params).adminDestroyed = (do_add env params).adminOpened := by
  unfold do_add
  repeat' split
  all_goals rfl

/-- In `do_drop` the handle is destroyed exactly when it was opened: both
exit paths reached after the open (lines 483 and 486) destroy it. -/
theorem do_drop_destroy_iff_open (env : DDEnv) :
    (do_drop env).dbDestroyed = (do_drop env).dbOpened := by
  unfold do_drop
  repeat' split
  all_goals rfl

/-- Every access-probe handle `ensure_user` successfully opens (on the
first check or on the post-escalation retry) is destroyed before it
returns. -/
theorem ensure_user_probe_destroyed (env : EUEnv) :
    (env.firstConn = ConnRes.ok → (ensure_user env).dbDestroyed = true) ∧
    (env.firstConn = ConnRes.accessDenied → env.adminEnsureOk = true →
      env.retryConn = ConnRes.ok → (ensure_user env).dbDestroyed = true) := by
  obtain ⟨f, a, r⟩ := env
  constructor
  · rintro rfl
    rfl
  · rintro rfl rfl rfl
    rfl

/-- Claim C9 (amended): handles opened during add and drop are released on
every exit path reached after the open (`do_add` destroys its
administrative handle whether its `create_tables` sub-call succeeds or
fails, `do_drop` on both the existing- and the missing-database outcome),
and `ensure_user` destroys every access-probe handle it successfully
opens; but the handles opened by `do_create`, `do_migrate` and
`create_tables` are released only on the successful exit path — on every
failure exit taken after the handle was opened they are not destroyed. -/
theorem C9_handle_release_discipline (dc : DCEnv) (mig : MigEnv)
    (params : List String) (ct : CTEnv) (tables : List String) (cs : Bool)
    (da : DAEnv) (aparams : List String) (dd : DDEnv) (eu : EUEnv) :
    ((do_add da aparams).adminOpened = true →
      (do_add da aparams).adminDestroyed = true) ∧
    ((do_drop dd).dbOpened = true → (do_drop dd).dbDestroyed = true) ∧
    (eu.firstConn = ConnRes.ok → (ensure_user eu).dbDestroyed = true) ∧
    (eu.firstConn = ConnRes.accessDenied → eu.adminEnsureOk = true →
      eu.retryConn = ConnRes.ok → (ensure_user eu).dbDestroyed = true) ∧
    ((do_create dc).ret = 0 → (do_create dc).adminDestroyed = true) ∧
    ((do_create dc).ret ≠ 0 → (do_create dc).adminDestroyed = false) ∧
    ((do_migrate mig params).ret = PyRet.boolTrue →
      (do_migrate mig params).destroyed = true) ∧
    ((do_migrate mig params).ret ≠ PyRet.boolTrue →
      (do_migrate mig params).destroyed = false) ∧
    ((create_tables ct tables cs).ret = 0 →
      (create_tables ct tables cs).dbDestroyed = true) ∧
    ((create_tables ct tables cs).ret ≠ 0 →
      (create_tables ct tables cs).dbDestroyed = false) := by
  refine ⟨fun h => ?_, fun h => ?_,
    (ensure_user_probe_destroyed eu).1,
    (ensure_user_probe_destroyed eu).2,
    fun h => (do_create_destroy_iff dc).mpr h,
    fun h => ?_,
    fun h => (do_migrate_destroy_iff mig params).mpr h,
    fun h => ?_,
    fun h => (create_tables_destroy_iff ct tables cs).mpr h,
    fun h => ?_⟩
  · rw [do_add_destroy_iff_open, h]
  · rw [do_drop_destroy_iff_open, h]
  · by_contra hb
    exact h ((do_create_destroy_iff dc).mp (by simpa using hb))
  · by_contra hb
    exact h ((do_migrate_destroy_iff mig params).mp (by simpa using hb))
  · by_contra hb
    exact h ((create_tables_destroy_iff ct tables cs).mp (by simpa using hb))

/-- Witness for C9 (amended) at concrete environments: `do_add` destroys
its handle even when its `create_tables` sub-call fails with -1; `do_drop`
destroys on the missing-database failure path; a post-escalation
`ensure_user` retry destroys its probe handle; a fully successful
`do_create` destroys its handle; a `do_migrate` aborted on a postgres
dialect leaves the opened handle undestroyed. -/
theorem C9_witness :
    (do_add ⟨true, true, true,
        ⟨true, false, some "/s", fun _ => true, [], none,
          fun _ => ExecResult.ok⟩⟩ ["dialog"]).ret = -1 ∧
    (do_add ⟨true, true, true,
        ⟨true, false, some "/s", fun _ => true, [], none,
          fun _ => ExecResult.ok⟩⟩ ["dialog"]).adminDestroyed = true ∧
    (do_drop ⟨true, true, false, false, false⟩).ret = -1 ∧
    (do_drop ⟨true, true, false, false, false⟩).dbDestroyed = true ∧
    (ensure_user ⟨ConnRes.accessDenied, true, ConnRes.ok⟩).dbDestroyed =
      true ∧
    (do_create ⟨true, true, ⟨true, false, true⟩, true, 0, 0⟩).adminDestroyed =
      true ∧
    (do_migrate
      ⟨some "postgres://postgres@localhost/postgres", true, "postgres", true,
        false, true, 0, "postgres",
        ⟨fun _ => true, fun _ => true, fun _ => true⟩,
        some "/usr/share/opensips", none⟩
      ["opensips", "opensips_new"]).destroyed = false := by
  have H := C9_handle_release_discipline
    ⟨true, true, ⟨true, false, true⟩, true, 0, 0⟩
    ⟨some "postgres://postgres@localhost/postgres", true, "postgres", true,
      false, true, 0, "postgres",
      ⟨fun _ => true, fun _ => true, fun _ => true⟩,
      some "/usr/share/opensips", none⟩
    ["opensips", "opensips_new"]
    ⟨true, true, some "/s", fun _ => true, [], none, fun _ => ExecResult.ok⟩
    [] true
    ⟨true, true, true,
      ⟨true, false, some "/s", fun _ => true, [], none,
        fun _ => ExecResult.ok⟩⟩ ["dialog"]
    ⟨true, true, false, false, false⟩
    ⟨ConnRes.accessDenied, true, ConnRes.ok⟩
  exact ⟨by decide, H.1 (by decide), by decide, H.2.1 (by decide),
    H.2.2.2.1 rfl rfl rfl, H.2.2.2.2.1 (by decide),
    H.2.2.2.2.2.2.2.1 (by decide)⟩

end OpensipsCli
